import Mathlib

/-!
Verification development for the "kasparro-agentic-fb-analyst" repository.

The repository is a small advertising-analytics pipeline.  The files present
under `src/` are `run.py` (the entry point and Markdown report builder),
`src/utils/helpers.py` (config/JSON/markdown/seed utilities),
`src/utils/logger.py` (logger factory) and `tests/test_evaluator.py`.
The core agent module `src/agents/evaluator.py` (class `EvaluatorAgent`)
and its shared scoring utilities are not present in the source tree; where a
claim depends on them, the corresponding definitions below are modelled from
the specification and say so in their doc comment.

Numbers the Python code handles as floats are embedded as rationals (`ℚ`):
every numeric computation the claims mention (percentage change, linear
ratio confidence, clamping, 2-decimal formatting) is exact on the inputs at
stake, so the rational embedding is faithful to the values the code computes.
-/

/-! ## Generic string machinery

Python's `in` operator on strings and `"\n".join(lines)` are embedded as
executable functions on `List Char` / `String`.
-/

/-- Boolean test that `x` occurs at the start of `y` (on character lists). -/
def isPrefixChars : List Char → List Char → Bool
  | [], _ => true
  | _ :: _, [] => false
  | a :: as, b :: bs => a = b && isPrefixChars as bs

/-- Boolean test that `x` occurs as a contiguous run inside `y`. -/
def containsChars (x : List Char) : List Char → Bool
  | [] => isPrefixChars x []
  | y :: ys => isPrefixChars x (y :: ys) || containsChars x ys

/-- Python's `needle in haystack` on strings. -/
def containsStr (haystack needle : String) : Bool :=
  containsChars needle.data haystack.data

/-- Python's `s.lower()` (restricted to the ASCII mapping, which is all the
claims use). -/
def lowerStr (s : String) : String :=
  ⟨s.data.map Char.toLower⟩

/-- Python's `sep.join(lines)`. -/
def joinSep (sep : String) : List String → String
  | [] => ""
  | [l] => l
  | l :: l' :: ls => l ++ sep ++ joinSep sep (l' :: ls)

/-! ## Scoring policy (shared utility)

Modelled from the spec: the shared scoring utilities used by the
`InsightAgent` and the `EvaluatorAgent` are part of the repository's agent
code, which is not present under `src/`.  Section 4.3 of the spec fixes the
contracts exactly, including the linear-ratio-capped confidence curve it
declares sufficient.
-/

/-- Modelled from the spec: `percent_change(before, after)` returns
`(after - before) / before` when `before != 0` and `0.0` when
`before == 0` (the documented defensive default avoiding a division
error). -/
def percent_change (before after : ℚ) : ℚ :=
  if before = 0 then 0 else (after - before) / before

/-- Modelled from the spec: `magnitude_to_confidence(magnitude, threshold)`
is the linear ratio `magnitude / threshold` capped at `1.0` and clamped
into `[0, 1]`. -/
def magnitude_to_confidence (magnitude threshold : ℚ) : ℚ :=
  max 0 (min (magnitude / threshold) 1)

/-! ## Evidence Evaluator (`EvaluatorAgent`)

Modelled from the spec: `src/agents/evaluator.py` (class `EvaluatorAgent`)
is not present under `src/`; only its test `tests/test_evaluator.py` and its
caller `run.py` are.  The definitions follow spec sections 3, 4.2 and 7:
per-hypothesis dispatch on the `type` tag, chronological metric series
extraction, first-vs-last relative change (one of the splits the spec
permits), linear-ratio confidence, evidence synthesis naming the metric and
the literal numbers, and the skip-not-fail policy (missing column, fewer
than 2 points, unregistered type: no `Evaluation`, no exception --
the embedding is a total function into `List Evaluation`).
-/

/-- A hypothesis record as the test constructs it: keys `id`, `type`,
`hypothesis`. -/
structure Hypothesis where
  id : String
  type : String
  hypothesis : String
deriving DecidableEq

/-- An evaluation record as the test and `run.py` consume it: keys
`hypothesis_id`, `hypothesis`, `type`, `confidence`, `evidence`. -/
structure Evaluation where
  hypothesis_id : String
  hypothesis : String
  type : String
  confidence : ℚ
  evidence : String
deriving DecidableEq

/-- The raw table, reduced to what the evaluator reads: named numeric
columns, each a chronologically ordered series (row order of the frame). -/
def Table := List (String × List ℚ)

/-- Column lookup: `df["name"]` when present, `none` when the column is
absent. -/
def getColumn (table : Table) (name : String) : Option (List ℚ) :=
  match table with
  | [] => none
  | (k, v) :: rest => if k = name then some v else getColumn rest name

/-- The threshold configuration consumed by the agents. -/
structure Thresholds where
  roas_drop_pct : ℚ
  low_ctr : ℚ
deriving DecidableEq

/-- Modelled from the spec: evaluation of a single hypothesis by
`EvaluatorAgent`.  Dispatches on the `type` tag (`roas_drop` is the
registered rule the test exercises; unregistered types are skipped),
extracts the `roas` series, computes the first-vs-last relative change,
maps the decline magnitude through `magnitude_to_confidence` against
`roas_drop_pct`, and synthesizes an evidence sentence naming ROAS and the
literal before/after and percentage values. -/
def evaluateOne (thr : Thresholds) (table : Table) (h : Hypothesis) :
    Option Evaluation :=
  if h.type = "roas_drop" then
    match getColumn table "roas" with
    | none => none
    | some series =>
      if series.length < 2 then none
      else
        match series.head?, series.getLast? with
        | some b, some a =>
          let pct := percent_change b a
          let mag := max 0 (-pct)
          let conf := magnitude_to_confidence mag thr.roas_drop_pct
          some
            { hypothesis_id := h.id
              hypothesis := h.hypothesis
              type := h.type
              confidence := conf
              evidence :=
                "ROAS moved from " ++ toString b ++ " to " ++ toString a ++
                  " (" ++ toString (pct * 100) ++ "% change vs threshold " ++
                  toString (thr.roas_drop_pct * 100) ++ "%)." }
        | _, _ => none
  else none

/-- Modelled from the spec: `EvaluatorAgent.evaluate(df, hypotheses)` maps
`evaluateOne` over the hypothesis list, keeping only the hypotheses that
could be evaluated. -/
def evaluate (thr : Thresholds) (table : Table) (hs : List Hypothesis) :
    List Evaluation :=
  hs.filterMap (evaluateOne thr table)

/-! ## `run.py`: report building and entry point -/

/-- Python's `"%.2f" % q` / `f"\x7bq:.2f\x7d"` on a rational: sign, then the
absolute value rounded (half away from zero) to two decimal digits.  Python
rounds the underlying binary float half-to-even; the two renderings agree on
every value the claims exercise, and no claim depends on tie behaviour. -/
def fmt2 (q : ℚ) : String :=
  let sgn := if q < 0 then "-" else ""
  let n := q.num.natAbs
  let d := q.den
  let m := (200 * n + d) / (2 * d)
  sgn ++ toString (m / 100) ++ "." ++
    (if m % 100 < 10 then "0" else "") ++ toString (m % 100)

/-- Python's `f"\x7bq:.4f\x7d"`, four decimal digits, same conventions as
`fmt2`. -/
def fmt4 (q : ℚ) : String :=
  let sgn := if q < 0 then "-" else ""
  let n := q.num.natAbs
  let d := q.den
  let m := (20000 * n + d) / (2 * d)
  let frac := m % 10000
  let pad :=
    if frac < 10 then "000" else if frac < 100 then "00"
    else if frac < 1000 then "0" else ""
  sgn ++ toString (m / 10000) ++ "." ++ pad ++ toString frac

/-- A planner step record as `build_report_markdown` reads it: keys `step`,
`name`, `description`. -/
structure PlanStep where
  step : Nat
  name : String
  description : String

/-- A creative recommendation record as `build_report_markdown` reads it. -/
structure CreativeRec where
  campaign_name : String
  adset_name : String
  original_ctr : ℚ
  original_roas : ℚ
  audience_type : String
  platform : String
  original_creative_message : String
  suggested_headlines : List String
  suggested_ctas : List String
  rationale : String

/-- The lines `build_report_markdown` appends for one evaluation
(`run.py` lines 40-45). -/
def evalLines (ev : Evaluation) : List String :=
  ["### " ++ ev.hypothesis_id ++ ": " ++ ev.hypothesis,
   "- Type: `" ++ ev.type ++ "`",
   "- Confidence: **" ++ fmt2 ev.confidence ++ "**",
   "- Evidence: " ++ ev.evidence,
   ""]

/-- The lines `build_report_markdown` appends for one creative
recommendation (`run.py` lines 51-63). -/
def recLines (rec : CreativeRec) : List String :=
  ["### Campaign: " ++ rec.campaign_name ++ " | Adset: " ++ rec.adset_name,
   "- Original CTR: " ++ fmt4 rec.original_ctr ++ ", Original ROAS: " ++
     fmt2 rec.original_roas,
   "- Audience: " ++ rec.audience_type ++ " | Platform: " ++ rec.platform,
   "- Original Message: " ++ rec.original_creative_message,
   "- Suggested Headlines:"] ++
  rec.suggested_headlines.map (fun h => "  - " ++ h) ++
  ["- Suggested CTAs: " ++ joinSep ", " rec.suggested_ctas,
   "- Rationale: " ++ rec.rationale,
   ""]

/-- Function `build_report_markdown` from `run.py`: accumulates the report lines and
joins them with newlines. -/
def build_report_markdown (user_query : String) (plan_steps : List PlanStep)
    (evaluations : List Evaluation) (creative_recs : List CreativeRec) :
    String :=
  let lines : List String :=
    ["# Kasparro Agentic FB Analyst – Report\n",
     "## User Query\n`" ++ user_query ++ "`\n",
     "## Planner Steps\n"] ++
    plan_steps.map (fun step =>
      "- **Step " ++ toString step.step ++ " – " ++ step.name ++ "**: " ++
        step.description) ++
    ["\n## Validated Insights\n"] ++
    (if evaluations.isEmpty then
      ["_No hypotheses generated/evaluated._"]
     else
      evaluations.flatMap evalLines) ++
    ["\n## Creative Recommendations (Low CTR)\n"] ++
    (if creative_recs.isEmpty then
      ["_No low-CTR campaigns detected under the configured threshold._"]
     else
      creative_recs.flatMap recLines)
  joinSep "\n" lines

/-- One observable step of `main` in `run.py`, in program order. -/
inductive MainEvent where
  | printUsage
  | exitCode (code : Nat)
  | loadConfig
  | getLoggerStep
  | setSeedStep
  | initAgents
  | planStep
  | loadData
  | generateHypothesesStep
  | evaluateStep
  | generateCreativesStep
  | saveInsights
  | saveCreatives
  | saveReport
  | printDone
deriving DecidableEq

/-- The event trace of `main(argv)` from `run.py` (named `mainRun` here because Lean reserves `main`): with fewer than two
entries in `sys.argv` it prints the usage string and exits with status 1;
otherwise it runs the pipeline (config, logging, seeding, agents, plan,
data, hypotheses, evaluation, creatives, three output files). -/
def mainRun (argv : List String) : List MainEvent :=
  if argv.length < 2 then
    [MainEvent.printUsage, MainEvent.exitCode 1]
  else
    [MainEvent.loadConfig, MainEvent.getLoggerStep, MainEvent.setSeedStep,
     MainEvent.initAgents, MainEvent.planStep, MainEvent.loadData,
     MainEvent.generateHypothesesStep, MainEvent.evaluateStep,
     MainEvent.generateCreativesStep, MainEvent.saveInsights,
     MainEvent.saveCreatives, MainEvent.saveReport, MainEvent.printDone]

/-! ## `src/utils/helpers.py` -/

/-- The process-wide random state the `random` and `numpy.random` modules
hold: `none` models the unseeded default, `some s` a state seeded with
`s`. -/
structure RandomState where
  pyState : Option Nat
  npState : Option Nat
deriving DecidableEq

/-- Function `set_seed(seed)` from `helpers.py`: calls `random.seed(seed)` and
`np.random.seed(seed)`.  Embedded as a transformer of the process-wide
`RandomState`; its Python return value is `None`, modelled as `Unit`. -/
def set_seed (seed : Nat) (_g : RandomState) : Unit × RandomState :=
  ((), { pyState := some seed, npState := some seed })

/-- A Python value as `json.dump(..., default=str)` sees it: the
JSON-native shapes, plus `other` for any non-native object together with
its `str()` rendering. -/
inductive PyVal where
  | str (s : String)
  | int (n : Int)
  | bool (b : Bool)
  | noneV
  | list (xs : List PyVal)
  | dict (kvs : List (String × PyVal))
  | other (strRepr : String)

mutual

/-- Serialization `json.dumps(obj, default=str)`: total serialization; a non-native
value is coerced through `str` (string escaping elided, irrelevant to the
claims). -/
def jsonDumps : PyVal → String
  | .str s => "\"" ++ s ++ "\""
  | .int n => toString n
  | .bool b => if b then "true" else "false"
  | .noneV => "null"
  | .other r => "\"" ++ r ++ "\""
  | .list xs => "[" ++ jsonDumpsList xs ++ "]"
  | .dict kvs => "\x7b" ++ jsonDumpsKvs kvs ++ "\x7d"

def jsonDumpsList : List PyVal → String
  | [] => ""
  | [x] => jsonDumps x
  | x :: y :: xs => jsonDumps x ++ ", " ++ jsonDumpsList (y :: xs)

def jsonDumpsKvs : List (String × PyVal) → String
  | [] => ""
  | [(k, v)] => "\"" ++ k ++ "\": " ++ jsonDumps v
  | (k, v) :: kv :: kvs =>
    "\"" ++ k ++ "\": " ++ jsonDumps v ++ ", " ++ jsonDumpsKvs (kv :: kvs)

end

/-- A path, split the way `os.path.dirname`/`basename` split it: the
directory components and the final file name.  A bare file name has
`dir = []`, matching `os.path.dirname(path) == ""`. -/
structure FPath where
  dir : List String
  base : String
deriving DecidableEq

/-- The file system as far as `save_json` observes it: the set of existing
directories (cwd-relative component lists) and the written files. -/
structure FS where
  dirs : List (List String)
  files : List (List String × String)
deriving DecidableEq

/-- The non-empty prefixes of a component list (the chain of directories
`os.makedirs` creates). -/
def dirPrefixes : List String → List (List String)
  | [] => []
  | c :: cs => [c] :: (dirPrefixes cs).map (fun p => c :: p)

/-- Call `os.makedirs(d, exist_ok=True)`: creates the whole chain of
directories.  CPython raises `FileNotFoundError` when `d` is the empty
string (`mkdir("")` fails and `isdir("")` is false, so `exist_ok` does not
swallow it); that is the `dir = []` case. -/
def makedirs (d : List String) (fs : FS) : Except String FS :=
  if d = [] then Except.error "FileNotFoundError"
  else Except.ok { fs with dirs := dirPrefixes d ++ fs.dirs }

/-- Call `open(path, "w")` followed by a write: succeeds when the parent
directory exists (the empty `dir` means the current directory, which
exists), errors otherwise. -/
def writeTextFile (p : FPath) (content : String) (fs : FS) :
    Except String FS :=
  if p.dir = [] ∨ p.dir ∈ fs.dirs then
    Except.ok { fs with files := (p.dir ++ [p.base], content) :: fs.files }
  else Except.error "FileNotFoundError"

/-- Function `save_json(obj, path)` from `helpers.py`:
`os.makedirs(os.path.dirname(path), exist_ok=True)` then
`json.dump(obj, f, indent=2, default=str)`.  Indentation is elided; the
serialized text is `jsonDumps obj`. -/
def save_json (obj : PyVal) (p : FPath) (fs : FS) : Except String FS :=
  match makedirs p.dir fs with
  | Except.error e => Except.error e
  | Except.ok fs' => writeTextFile p (jsonDumps obj) fs'

/-! ## `src/utils/logger.py` -/

/-- A `logging.Handler` as `get_logger` configures one: a file handler
with its path, or a stream handler. -/
structure Handler where
  kind : String
  path : Option String
  level : Nat
deriving DecidableEq

/-- A `logging.Logger`: level, attached handlers, propagate flag. -/
structure Logger where
  level : Nat
  handlers : List Handler
  propagate : Bool
deriving DecidableEq

/-- The `logging` module's registry of loggers by name
(`logging.getLogger` returns the existing instance for a name, or a fresh
logger with no handlers: level `NOTSET = 0`, `propagate = True`). -/
def LoggerRegistry := List (String × Logger)

/-- Registry lookup, first binding wins. -/
def lookupReg (reg : LoggerRegistry) (n : String) : Option Logger :=
  match reg with
  | [] => none
  | (k, v) :: rest => if k = n then some v else lookupReg rest n

/-- Registry update: replace the binding for `n`, or append it. -/
def setReg (reg : LoggerRegistry) (n : String) (l : Logger) :
    LoggerRegistry :=
  match reg with
  | [] => [(n, l)]
  | (k, v) :: rest =>
    if k = n then (n, l) :: rest else (k, v) :: setReg rest n l

/-- Function `get_logger(name, log_dir)` from `logger.py`: fetches or creates the
named logger, sets level `INFO = 20`, attaches a file handler and a stream
handler only when the logger has no handlers yet, sets `propagate = False`,
and returns it.  The `os.makedirs(log_dir)` side effect touches only the
file system, not the registry, and is not modelled. -/
def get_logger (name : String) (log_dir : String) (reg : LoggerRegistry) :
    Logger × LoggerRegistry :=
  let l0 :=
    match lookupReg reg name with
    | some l => l
    | none => { level := 0, handlers := [], propagate := true }
  let l1 : Logger := { l0 with level := 20 }
  let l2 : Logger :=
    if l1.handlers.isEmpty then
      { l1 with handlers :=
          l1.handlers ++
            [{ kind := "file",
               path := some (log_dir ++ "/agentic_fb_analyst.log"),
               level := 20 },
             { kind := "stream", path := none, level := 20 }] }
    else l1
  let l3 : Logger := { l2 with propagate := false }
  (l3, setReg reg name l3)

/-! ## Concrete fixtures used by the claim witnesses -/

/-- The thresholds of `tests/test_evaluator.py`:
`{"roas_drop_pct": 0.15, "low_ctr": 0.007}`. -/
def thrC2 : Thresholds := { roas_drop_pct := 3/20, low_ctr := 7/1000 }

/-- The data frame of `tests/test_evaluator.py`: ROAS series
`[4.0, 3.8, 3.5, 3.0, 2.5, 2.0]` and CTR series
`[0.01, 0.011, 0.009, 0.008, 0.007, 0.006]` over 6 daily periods. -/
def tableC2 : Table :=
  [("roas", [4, 19/5, 7/2, 3, 5/2, 2]),
   ("ctr", [1/100, 11/1000, 9/1000, 1/125, 7/1000, 3/500])]

/-- The hypothesis of `tests/test_evaluator.py`. -/
def hypC2 : Hypothesis :=
  { id := "H1", type := "roas_drop", hypothesis := "ROAS dropped over time." }

/-- The single evaluation `evaluate` produces on the test fixture
(confidence and evidence left in computed form). -/
def evC2 : Evaluation :=
  { hypothesis_id := "H1"
    hypothesis := "ROAS dropped over time."
    type := "roas_drop"
    confidence := magnitude_to_confidence (max 0 (-percent_change 4 2)) (3/20)
    evidence :=
      "ROAS moved from " ++ toString (4 : ℚ) ++ " to " ++ toString (2 : ℚ) ++
        " (" ++ toString (percent_change 4 2 * 100) ++
        "% change vs threshold " ++ toString ((3/20 : ℚ) * 100) ++ "%)." }

/-- A two-point declining table for the C1 witness. -/
def tblW1 : Table := [("roas", [2, 1])]

/-- A hypothesis for the C1 witness. -/
def hypW1 : Hypothesis :=
  { id := "H9", type := "roas_drop", hypothesis := "ROAS dropped." }

/-- The evaluation produced on `tblW1`. -/
def evW1 : Evaluation :=
  { hypothesis_id := "H9"
    hypothesis := "ROAS dropped."
    type := "roas_drop"
    confidence := magnitude_to_confidence (max 0 (-percent_change 2 1)) (3/20)
    evidence :=
      "ROAS moved from " ++ toString (2 : ℚ) ++ " to " ++ toString (1 : ℚ) ++
        " (" ++ toString (percent_change 2 1 * 100) ++
        "% change vs threshold " ++ toString ((3/20 : ℚ) * 100) ++ "%)." }

/-- A table without a `roas` column, for the C3 witness. -/
def tblW3 : Table := [("ctr", [1/100, 9/1000])]

/-- A hypothesis whose required column is absent from `tblW3`. -/
def hypW3 : Hypothesis :=
  { id := "H2", type := "roas_drop", hypothesis := "ROAS dropped." }

/-- A concrete evaluation record for the C6 witness. -/
def evW6 : Evaluation :=
  { hypothesis_id := "H1"
    hypothesis := "ROAS dropped over time."
    type := "roas_drop"
    confidence := 1
    evidence := "ROAS fell from 4.0 to 2.0 (-50% vs threshold 15%)." }

/-! ## String lemmas -/
theorem isPrefixChars_append_self (x t : List Char) :
    isPrefixChars x (x ++ t) = true := by
  induction x with
  | nil => rfl
  | cons a as ih => simp [isPrefixChars, ih]

theorem containsChars_nil_left (y : List Char) : containsChars [] y = true := by
  cases y <;> simp [containsChars, isPrefixChars]

theorem containsChars_sandwich (A x B : List Char) :
    containsChars x (A ++ x ++ B) = true := by
  induction A with
  | nil =>
    cases x with
    | nil => simpa using containsChars_nil_left B
    | cons c cs =>
      have h := isPrefixChars_append_self (c :: cs) B
      simp only [List.nil_append, List.cons_append, containsChars, Bool.or_eq_true]
      left
      simpa using h
  | cons a as ih =>
    have : (a :: as) ++ x ++ B = a :: (as ++ x ++ B) := by simp
    rw [this]
    simp only [containsChars, Bool.or_eq_true]
    right
    simpa [List.append_assoc] using ih

/-- String append acts as list append on the underlying character data. -/
theorem data_append (a b : String) : (a ++ b).data = a.data ++ b.data := rfl

theorem joinSep_decomp (sep : String) :
    ∀ (ls : List String) (l : String), l ∈ ls →
      ∃ A B : List Char, (joinSep sep ls).data = A ++ l.data ++ B
  | [], l, h => absurd h (List.not_mem_nil l)
  | [l'], l, h => by
    rcases List.mem_singleton.mp h with rfl
    exact ⟨[], [], by simp [joinSep]⟩
  | l' :: l'' :: rest, l, h => by
    rcases List.mem_cons.mp h with rfl | h'
    · refine ⟨[], (sep ++ joinSep sep (l'' :: rest)).data, ?_⟩
      simp [joinSep, data_append, List.append_assoc]
    · rcases joinSep_decomp sep (l'' :: rest) l h' with ⟨A, B, hAB⟩
      refine ⟨(l' ++ sep).data ++ A, B, ?_⟩
      simp [joinSep, data_append, hAB, List.append_assoc]

theorem containsStr_of_mem_join (sep : String) (ls : List String) (l : String)
    (hmem : l ∈ ls) (x : String) (A B : List Char)
    (hl : l.data = A ++ x.data ++ B) :
    containsStr (joinSep sep ls) x = true := by
  rcases joinSep_decomp sep ls l hmem with ⟨A', B', hAB⟩
  unfold containsStr
  rw [hAB, hl]
  have : A' ++ (A ++ x.data ++ B) ++ B' = (A' ++ A) ++ x.data ++ (B ++ B') := by
    simp [List.append_assoc]
  rw [this]
  exact containsChars_sandwich (A' ++ A) x.data (B ++ B')

theorem lowerStr_data (s : String) :
    (lowerStr s).data = s.data.map Char.toLower := rfl

theorem containsStr_of_data_decomp (hay x : String) (A B : List Char)
    (h : hay.data = A ++ x.data ++ B) : containsStr hay x = true := by
  unfold containsStr
  rw [h]
  exact containsChars_sandwich A x.data B

theorem magnitude_to_confidence_mem_unit (m t : ℚ) :
    0 ≤ magnitude_to_confidence m t ∧ magnitude_to_confidence m t ≤ 1 := by
  unfold magnitude_to_confidence
  exact ⟨le_max_left 0 _, max_le (by norm_num) (min_le_right _ _)⟩

/-! ## Claim theorems -/

/-- C4: the magnitude-to-confidence mapping is clamped to `[0,1]`, sends a
zero magnitude to `0.0`, is monotonic in the magnitude for a fixed
threshold (magnitudes are absolute declines, hence nonnegative), and sends
a magnitude equal to a positive threshold to a confidence of at least
`0.5`; consequently a larger absolute decline never yields a smaller
confidence. -/
theorem claim_C4_confidence_curve :
    (∀ m t : ℚ,
      0 ≤ magnitude_to_confidence m t ∧ magnitude_to_confidence m t ≤ 1) ∧
    (∀ t : ℚ, magnitude_to_confidence 0 t = 0) ∧
    (∀ (t m₁ m₂ : ℚ), 0 ≤ m₁ → m₁ ≤ m₂ →
      magnitude_to_confidence m₁ t ≤ magnitude_to_confidence m₂ t) ∧
    (∀ t : ℚ, 0 < t → 1/2 ≤ magnitude_to_confidence t t) := by
  refine ⟨magnitude_to_confidence_mem_unit, ?_, ?_, ?_⟩
  · intro t
    simp [magnitude_to_confidence, zero_div]
  · intro t m₁ m₂ hm₁ h12
    rcases le_or_lt t 0 with ht | ht
    · have key : ∀ m : ℚ, 0 ≤ m → magnitude_to_confidence m t = 0 := by
        intro m hm
        have hdiv : m / t ≤ 0 := div_nonpos_of_nonneg_of_nonpos hm ht
        have : min (m / t) 1 ≤ 0 := le_trans (min_le_left _ _) hdiv
        unfold magnitude_to_confidence
        exact max_eq_left this
      rw [key m₁ hm₁, key m₂ (le_trans hm₁ h12)]
    · have hdiv : m₁ / t ≤ m₂ / t := (div_le_div_iff_of_pos_right ht).mpr h12
      unfold magnitude_to_confidence
      exact max_le_max le_rfl (min_le_min hdiv le_rfl)
  · intro t ht
    unfold magnitude_to_confidence
    rw [div_self (ne_of_gt ht)]
    norm_num

/-- Witness for C4 at concrete inputs: monotonicity at magnitudes
`1/10 ≤ 3/10` with threshold `3/20`, and the at-threshold bound at
`3/20`. -/
theorem claim_C4_witness :
    magnitude_to_confidence (1/10) (3/20) ≤
      magnitude_to_confidence (3/10) (3/20) ∧
    1/2 ≤ magnitude_to_confidence (3/20) (3/20) :=
  ⟨claim_C4_confidence_curve.2.2.1 (3/20) (1/10) (3/10) (by norm_num)
      (by norm_num),
   claim_C4_confidence_curve.2.2.2 (3/20) (by norm_num)⟩

/-- C5: `percent_change` returns `(after - before) / before` when
`before ≠ 0` and exactly `0.0` when `before = 0`; being a total function,
it never raises a division error. -/
theorem claim_C5_percent_change (before after : ℚ) :
    (before ≠ 0 → percent_change before after = (after - before) / before) ∧
    (before = 0 → percent_change before after = 0) := by
  constructor <;> intro h <;> simp [percent_change, h]

/-- Witness for C5 at `(before, after) = (2, 1)` and `(0, 5)`. -/
theorem claim_C5_witness :
    percent_change 2 1 = (1 - 2) / 2 ∧ percent_change 0 5 = 0 :=
  ⟨(claim_C5_percent_change 2 1).1 (by norm_num),
   (claim_C5_percent_change 0 5).2 rfl⟩

/-- C7: `set_seed` mutates the process-wide random state — it seeds both
the `random` module's and numpy's global state — and returns `None`
(modelled `Unit`), not a random source. -/
theorem claim_C7_set_seed_global (seed : Nat) (g : RandomState) :
    (set_seed seed g).1 = () ∧
    (set_seed seed g).2.pyState = some seed ∧
    (set_seed seed g).2.npState = some seed :=
  ⟨rfl, rfl, rfl⟩

/-- C10: with fewer than two entries in `sys.argv`, `main` prints the
usage message and exits with status 1, and its trace contains no
config-loading, agent-initialization, or output-writing event. -/
theorem claim_C10_usage_exit (argv : List String) (h : argv.length < 2) :
    mainRun argv = [MainEvent.printUsage, MainEvent.exitCode 1] ∧
    MainEvent.loadConfig ∉ mainRun argv ∧
    MainEvent.initAgents ∉ mainRun argv ∧
    MainEvent.saveInsights ∉ mainRun argv ∧
    MainEvent.saveCreatives ∉ mainRun argv ∧
    MainEvent.saveReport ∉ mainRun argv := by
  have e : mainRun argv = [MainEvent.printUsage, MainEvent.exitCode 1] := by
    unfold mainRun
    rw [if_pos h]
  refine ⟨e, ?_, ?_, ?_, ?_, ?_⟩ <;> rw [e] <;> decide

/-- Witness for C10 at `argv = ["run.py"]` (no user query). -/
theorem claim_C10_witness :
    mainRun ["run.py"] = [MainEvent.printUsage, MainEvent.exitCode 1] ∧
    MainEvent.loadConfig ∉ mainRun ["run.py"] ∧
    MainEvent.initAgents ∉ mainRun ["run.py"] ∧
    MainEvent.saveInsights ∉ mainRun ["run.py"] ∧
    MainEvent.saveCreatives ∉ mainRun ["run.py"] ∧
    MainEvent.saveReport ∉ mainRun ["run.py"] :=
  claim_C10_usage_exit ["run.py"] (by decide)

/-- C1: every evaluation record produced by `EvaluatorAgent.evaluate` has
its confidence in the closed interval `[0, 1]`. -/
theorem claim_C1_confidence_bounds (thr : Thresholds) (table : Table)
    (hyps : List Hypothesis) (ev : Evaluation)
    (hmem : ev ∈ evaluate thr table hyps) :
    0 ≤ ev.confidence ∧ ev.confidence ≤ 1 := by
  rcases List.mem_filterMap.mp hmem with ⟨hyp, _, hsome⟩
  unfold evaluateOne at hsome
  split at hsome
  · split at hsome
    · exact absurd hsome (by simp)
    · split at hsome
      · exact absurd hsome (by simp)
      · split at hsome
        · have := Option.some.inj hsome
          rw [← this]
          exact magnitude_to_confidence_mem_unit _ _
        · exact absurd hsome (by simp)
  · exact absurd hsome (by simp)

/-- Witness for C1: the evaluation produced on the two-point declining
table `tblW1` has its confidence in `[0, 1]`. -/
theorem claim_C1_witness : 0 ≤ evW1.confidence ∧ evW1.confidence ≤ 1 :=
  claim_C1_confidence_bounds thrC2 tblW1 [hypW1] evW1
    (show evW1 ∈ [evW1] from List.mem_singleton_self _)

/-- C3: a `roas_drop` hypothesis whose `roas` column is absent from the
table, or whose series has fewer than 2 points, yields no `Evaluation`,
and `evaluate` simply skips it (the embedding is a total function, so no
exception reaches the caller). -/
theorem claim_C3_skip_not_fail (thr : Thresholds) (table : Table)
    (hyp : Hypothesis) (hyps : List Hypothesis)
    (htype : hyp.type = "roas_drop")
    (hdata : getColumn table "roas" = none ∨
      ∃ s, getColumn table "roas" = some s ∧ s.length < 2) :
    evaluateOne thr table hyp = none ∧
    evaluate thr table (hyp :: hyps) = evaluate thr table hyps := by
  have hnone : evaluateOne thr table hyp = none := by
    unfold evaluateOne
    rw [if_pos htype]
    rcases hdata with hc | ⟨s, hc, hlen⟩
    · rw [hc]
    · rw [hc]
      simp only [if_pos hlen]
  exact ⟨hnone, by simp [evaluate, List.filterMap_cons, hnone]⟩

/-- Witness for C3: a table with only a `ctr` column yields no evaluation
for a `roas_drop` hypothesis. -/
theorem claim_C3_witness :
    evaluateOne thrC2 tblW3 hypW3 = none ∧
    evaluate thrC2 tblW3 (hypW3 :: []) = evaluate thrC2 tblW3 [] :=
  claim_C3_skip_not_fail thrC2 tblW3 hypW3 [] rfl (Or.inl rfl)

/-- C2: on the test fixture (ROAS series `[4.0, 3.8, 3.5, 3.0, 2.5, 2.0]`,
threshold `roas_drop_pct = 0.15`, single `roas_drop` hypothesis `H1`),
`evaluate` returns exactly one evaluation, with `hypothesis_id = "H1"`,
confidence in `[0, 1]`, and an evidence string containing `"ROAS"`
case-insensitively. -/
theorem claim_C2_end_to_end :
    ∃ ev : Evaluation,
      evaluate thrC2 tableC2 [hypC2] = [ev] ∧
      ev.hypothesis_id = "H1" ∧
      0 ≤ ev.confidence ∧ ev.confidence ≤ 1 ∧
      containsStr (lowerStr ev.evidence) "roas" = true := by
  refine ⟨evC2, rfl, rfl, (magnitude_to_confidence_mem_unit _ _).1,
    (magnitude_to_confidence_mem_unit _ _).2, ?_⟩
  have key : ∀ tail : List Char,
      containsChars "roas".data
        ("ROAS moved from ".data.map Char.toLower ++ tail) = true := by
    intro tail
    have hlit : "ROAS moved from ".data.map Char.toLower =
        "roas".data ++ " moved from ".data := by decide
    rw [hlit, List.append_assoc]
    simpa using
      containsChars_sandwich [] "roas".data (" moved from ".data ++ tail)
  unfold containsStr
  rw [lowerStr_data]
  show containsChars "roas".data (evC2.evidence.data.map Char.toLower) = true
  simp only [evC2, data_append, List.map_append, List.append_assoc]
  exact key _

theorem mem_dirPrefixes_self :
    ∀ (d : List String), d ≠ [] → d ∈ dirPrefixes d
  | [], h => absurd rfl h
  | [c], _ => by simp [dirPrefixes]
  | c :: c' :: cs, _ => by
    have ih := mem_dirPrefixes_self (c' :: cs) (by simp)
    show c :: c' :: cs ∈ [c] :: (dirPrefixes (c' :: cs)).map (fun q => c :: q)
    exact List.mem_cons.mpr (Or.inr (List.mem_map.mpr ⟨c' :: cs, ih, rfl⟩))

/-- C9 counterexample: at a bare file name the path's directory part is
empty, `os.path.dirname` returns `""`, and
`os.makedirs("", exist_ok=True)` raises `FileNotFoundError` before
anything is written — `save_json` does raise for this writable path. -/
theorem claim_C9_counterexample :
    save_json (PyVal.str "x") { dir := [], base := "insights.json" }
      { dirs := [], files := [] } = Except.error "FileNotFoundError" := rfl

/-- C9 amended: for every object and every path whose directory part is
non-empty, `save_json` raises no exception: it creates the missing parent
directories first, and `default=str` makes serialization total, so the
write succeeds. -/
theorem claim_C9_amended (obj : PyVal) (p : FPath) (fs : FS)
    (hdir : p.dir ≠ []) :
    ∃ fs' : FS, save_json obj p fs = Except.ok fs' := by
  have h1 : makedirs p.dir fs =
      Except.ok { dirs := dirPrefixes p.dir ++ fs.dirs, files := fs.files } := by
    unfold makedirs
    rw [if_neg hdir]
  unfold save_json
  rw [h1]
  show ∃ fs', writeTextFile p (jsonDumps obj)
    { dirs := dirPrefixes p.dir ++ fs.dirs, files := fs.files } = Except.ok fs'
  unfold writeTextFile
  rw [if_pos]
  · exact ⟨_, rfl⟩
  · right
    exact List.mem_append.mpr (Or.inl (mem_dirPrefixes_self p.dir hdir))

/-- Witness for the amended C9: writing a non-JSON-native object to
`outputs/insights.json` on an empty file system succeeds. -/
theorem claim_C9_witness :
    ∃ fs' : FS,
      save_json (PyVal.other "obj") { dir := ["outputs"], base := "insights.json" }
        { dirs := [], files := [] } = Except.ok fs' :=
  claim_C9_amended (PyVal.other "obj")
    { dir := ["outputs"], base := "insights.json" }
    { dirs := [], files := [] } (by simp)

theorem lookupReg_setReg (reg : LoggerRegistry) (n : String) (l : Logger) :
    lookupReg (setReg reg n l) n = some l := by
  induction reg with
  | nil => simp [setReg, lookupReg]
  | cons kv rest ih =>
    obtain ⟨k, v⟩ := kv
    by_cases h : k = n
    · simp [setReg, lookupReg, h]
    · simp [setReg, lookupReg, h, ih]

theorem setReg_setReg (reg : LoggerRegistry) (n : String) (l l' : Logger) :
    setReg (setReg reg n l) n l' = setReg reg n l' := by
  induction reg with
  | nil => simp [setReg]
  | cons kv rest ih =>
    obtain ⟨k, v⟩ := kv
    by_cases h : k = n
    · simp [setReg, h]
    · simp [setReg, h, ih]

theorem get_logger_first_props (name d : String) (reg : LoggerRegistry) :
    (get_logger name d reg).1.level = 20 ∧
    (get_logger name d reg).1.propagate = false ∧
    (get_logger name d reg).1.handlers ≠ [] := by
  unfold get_logger
  cases hlk : lookupReg reg name with
  | none => simp
  | some l0 =>
    by_cases hh : l0.handlers.isEmpty
    · simp [hh]
    · simp [hh]
      intro hnil
      rw [hnil] at hh
      exact hh rfl

/-- C8: calling `get_logger` a second time with the same name returns the
very same logger and leaves the logging registry unchanged — in
particular no additional handlers are attached, so repeated calls never
cause duplicate log output (the log directory of the second call is
irrelevant, since the handler-attachment branch is skipped). -/
theorem claim_C8_get_logger_idempotent (name d₁ d₂ : String)
    (reg : LoggerRegistry) :
    get_logger name d₂ (get_logger name d₁ reg).2 =
      get_logger name d₁ reg := by
  have hprops := get_logger_first_props name d₁ reg
  have hsnd : (get_logger name d₁ reg).2 =
      setReg reg name (get_logger name d₁ reg).1 := rfl
  rcases hcall : get_logger name d₁ reg with ⟨L, r₁⟩
  rw [hcall] at hprops hsnd
  obtain ⟨hlev, hprop, hhand⟩ := hprops
  obtain ⟨lv, hs, pr⟩ := L
  simp only at hlev hprop hhand hsnd ⊢
  subst hlev
  subst hprop
  subst hsnd
  cases hs with
  | nil => exact absurd rfl hhand
  | cons a as =>
    unfold get_logger
    rw [lookupReg_setReg]
    simp [setReg_setReg]

theorem report_contains_of_line (uq : String) (steps : List PlanStep)
    (evs : List Evaluation) (recs : List CreativeRec)
    (hne : evs ≠ []) (ev : Evaluation) (hmem : ev ∈ evs)
    (l : String) (hl : l ∈ evalLines ev)
    (x : String) (A B : List Char) (hx : l.data = A ++ x.data ++ B) :
    containsStr (build_report_markdown uq steps evs recs) x = true := by
  unfold build_report_markdown
  apply containsStr_of_mem_join "\n" _ l ?_ x A B hx
  have hE : l ∈ (if evs.isEmpty then
      ["_No hypotheses generated/evaluated._"] else
      evs.flatMap evalLines) := by
    rw [if_neg (by simp [hne])]
    exact List.mem_flatMap.mpr ⟨ev, hmem, hl⟩
  exact List.mem_append.mpr (Or.inl (List.mem_append.mpr (Or.inl
    (List.mem_append.mpr (Or.inr hE)))))

/-- C6: for every non-empty evaluation list, the Markdown report rendered
by `build_report_markdown` contains, for each evaluation, its hypothesis
id, its hypothesis statement, its type (in backticks), its confidence
rendered to 2 decimal places, and its evidence text. -/
theorem claim_C6_report_lists_fields (uq : String) (steps : List PlanStep)
    (evs : List Evaluation) (recs : List CreativeRec)
    (hne : evs ≠ []) (ev : Evaluation) (hmem : ev ∈ evs) :
    containsStr (build_report_markdown uq steps evs recs)
      ev.hypothesis_id = true ∧
    containsStr (build_report_markdown uq steps evs recs)
      ev.hypothesis = true ∧
    containsStr (build_report_markdown uq steps evs recs)
      ("`" ++ ev.type ++ "`") = true ∧
    containsStr (build_report_markdown uq steps evs recs)
      (fmt2 ev.confidence) = true ∧
    containsStr (build_report_markdown uq steps evs recs)
      ev.evidence = true := by
  have hsplit : "- Type: `".data = "- Type: ".data ++ "`".data := by decide
  refine ⟨?_, ?_, ?_, ?_, ?_⟩
  · exact report_contains_of_line uq steps evs recs hne ev hmem
      ("### " ++ ev.hypothesis_id ++ ": " ++ ev.hypothesis)
      (by simp [evalLines]) ev.hypothesis_id
      "### ".data (": " ++ ev.hypothesis).data
      (by simp [data_append, List.append_assoc])
  · exact report_contains_of_line uq steps evs recs hne ev hmem
      ("### " ++ ev.hypothesis_id ++ ": " ++ ev.hypothesis)
      (by simp [evalLines]) ev.hypothesis
      ("### " ++ ev.hypothesis_id ++ ": ").data []
      (by simp [data_append, List.append_assoc])
  · exact report_contains_of_line uq steps evs recs hne ev hmem
      ("- Type: `" ++ ev.type ++ "`") (by simp [evalLines])
      ("`" ++ ev.type ++ "`") "- Type: ".data []
      (by simp [data_append, hsplit, List.append_assoc])
  · exact report_contains_of_line uq steps evs recs hne ev hmem
      ("- Confidence: **" ++ fmt2 ev.confidence ++ "**")
      (by simp [evalLines]) (fmt2 ev.confidence)
      "- Confidence: **".data "**".data
      (by simp [data_append, List.append_assoc])
  · exact report_contains_of_line uq steps evs recs hne ev hmem
      ("- Evidence: " ++ ev.evidence) (by simp [evalLines])
      ev.evidence "- Evidence: ".data []
      (by simp [data_append, List.append_assoc])

/-- Witness for C6: a concrete one-evaluation report contains all five
fields. -/
theorem claim_C6_witness :
    containsStr (build_report_markdown "q" [] [evW6] [])
      evW6.hypothesis_id = true ∧
    containsStr (build_report_markdown "q" [] [evW6] [])
      evW6.hypothesis = true ∧
    containsStr (build_report_markdown "q" [] [evW6] [])
      ("`" ++ evW6.type ++ "`") = true ∧
    containsStr (build_report_markdown "q" [] [evW6] [])
      (fmt2 evW6.confidence) = true ∧
    containsStr (build_report_markdown "q" [] [evW6] [])
      evW6.evidence = true :=
  claim_C6_report_lists_fields "q" [] [evW6] [] (by simp) evW6
    (List.mem_singleton_self _)
